import Mathlib

/-!
Verification of the HLS_VI_Pipeline raster aggregation/reprojection core.

This file gives a shallow embedding, in Lean 4, of the parts of the
pipeline's Python sources that the verified properties talk about:

* `02_hls_vi_calc.py`   — vegetation-index computation and quality masking;
* `03_hls_netcdf_build.py` — temporal-cube construction, chunking, merging,
  and pixel-center coordinate derivation;
* `04_hls_mean_reproject.py`, `05_hls_outlier_reproject.py`,
  `09_hls_count_valid_mosaic.py`, `10_hls_timeseries_mosaic.py` — valid-range
  filtering, outlier statistics, reprojection call sites and restart logic;
* `10_hls_timeseries_mosaic.py` — time-window configuration parsing;
* `11_hls_outlier_gpkg.py`  — outlier extraction for the GeoPackage export;
* `hls_utils.py`        — the per-index valid-range lookup.

Numpy/xarray float arrays are modelled over an exact value domain `FVal`
(a rational plus the IEEE-754 special values `±inf` and `NaN`), with the
IEEE propagation rules for the operations the code uses.  Machine floats
are approximated by exact rationals; none of the verified properties
depends on rounding.  File-system state is passed explicitly as functions
(`String → Bool` for existence, `String → Option Plane` for raster reads).
-/

/-- IEEE-754-style scalar for the pipeline's float arrays: a finite value
(modelled as an exact rational), one of the two infinities, or NaN. -/
inductive FVal where
  | fin (q : ℚ)
  | pinf
  | ninf
  | nan
deriving DecidableEq, Repr

/-- NaN test (numpy `isnan`). -/
def FVal.isNaN : FVal → Bool
  | .nan => true
  | _ => false

/-- Finiteness test (numpy `isfinite`): true exactly on finite values. -/
def FVal.isFinite : FVal → Bool
  | .fin _ => true
  | _ => false

/-- IEEE negation. -/
def FVal.neg : FVal → FVal
  | .fin q => .fin (-q)
  | .pinf => .ninf
  | .ninf => .pinf
  | .nan => .nan

/-- IEEE addition (NaN propagates; `+inf + -inf = NaN`). -/
def FVal.add : FVal → FVal → FVal
  | .nan, _ => .nan
  | _, .nan => .nan
  | .fin a, .fin b => .fin (a + b)
  | .pinf, .ninf => .nan
  | .ninf, .pinf => .nan
  | .pinf, _ => .pinf
  | _, .pinf => .pinf
  | .ninf, _ => .ninf
  | _, .ninf => .ninf

/-- IEEE subtraction. -/
def FVal.sub (a b : FVal) : FVal := a.add b.neg

/-- IEEE multiplication (NaN propagates; `0 * ±inf = NaN`). -/
def FVal.mul : FVal → FVal → FVal
  | .nan, _ => .nan
  | _, .nan => .nan
  | .fin a, .fin b => .fin (a * b)
  | .pinf, .pinf => .pinf
  | .pinf, .ninf => .ninf
  | .ninf, .pinf => .ninf
  | .ninf, .ninf => .pinf
  | .pinf, .fin b => if b = 0 then .nan else if 0 < b then .pinf else .ninf
  | .fin a, .pinf => if a = 0 then .nan else if 0 < a then .pinf else .ninf
  | .ninf, .fin b => if b = 0 then .nan else if 0 < b then .ninf else .pinf
  | .fin a, .ninf => if a = 0 then .nan else if 0 < a then .ninf else .pinf

/-- IEEE division with an unsigned zero: `0/0 = NaN`, `x/0 = ±inf` for
finite nonzero `x`, `±inf/±inf = NaN`, `finite/±inf = 0`. -/
def FVal.div : FVal → FVal → FVal
  | .nan, _ => .nan
  | _, .nan => .nan
  | .fin a, .fin b =>
      if b = 0 then (if a = 0 then .nan else if 0 < a then .pinf else .ninf)
      else .fin (a / b)
  | .fin _, .pinf => .fin 0
  | .fin _, .ninf => .fin 0
  | .pinf, .fin b => if 0 ≤ b then .pinf else .ninf
  | .ninf, .fin b => if 0 ≤ b then .ninf else .pinf
  | _, _ => .nan

/-- IEEE strict less-than: any comparison involving NaN is false. -/
def FVal.lt : FVal → FVal → Bool
  | .nan, _ => false
  | _, .nan => false
  | .fin a, .fin b => decide (a < b)
  | .ninf, .ninf => false
  | .ninf, _ => true
  | _, .ninf => false
  | .pinf, .pinf => false
  | _, .pinf => true
  | .pinf, _ => false

/-!
### `02_hls_vi_calc.py` — index computation (`calculate_indices`, lines 88–104)

The numpy expressions are elementwise over the red/nir arrays; arrays are
modelled as `List FVal` and the broadcast scalars `2.5`, `2.4`, `1` as the
exact rationals `5/2`, `12/5`, `1`.  The function is total: the `0/0` and
`x/0` cases produce NaN/±inf values (`np.errstate` only silences console
warnings; no exception is raised).
-/

/-- `calculate_indices(red, nir)`: returns the `(ndvi, evi2, nirv)` arrays.

    ndvi = (nir - red) / (nir + red)
    evi2 = 2.5 * (nir - red) / (nir + 2.4 * red + 1)
    nirv = ndvi * nir -/
def calculate_indices (red nir : List FVal) :
    List FVal × List FVal × List FVal :=
  let ndvi_denom := List.zipWith FVal.add nir red
  let ndvi := List.zipWith FVal.div (List.zipWith FVal.sub nir red) ndvi_denom
  let evi2_denom :=
    (List.zipWith FVal.add nir
      (red.map (fun r => (FVal.fin (12/5)).mul r))).map
        (fun v => v.add (.fin 1))
  let evi2 :=
    List.zipWith FVal.div
      ((List.zipWith FVal.sub nir red).map (fun v => (FVal.fin (5/2)).mul v))
      evi2_denom
  let nirv := List.zipWith FVal.mul ndvi nir
  (ndvi, evi2, nirv)

/-!
### `02_hls_vi_calc.py` — quality masking (lines 131–153)

The per-pixel Fmask byte is a `Nat`; the six boolean toggles come from the
`MASK_*` configuration, the aerosol mode is the (uppercased) string from
`MASK_AEROSOL_MODE`.
-/

/-- The six enabled-flag toggles of `HLSProcessor` (lines 40–45). -/
structure MaskFlags where
  cirrus : Bool
  cloud : Bool
  adj : Bool
  shadow : Bool
  snow : Bool
  water : Bool
deriving DecidableEq, Repr

/-- The exclusion mask computed for one pixel (lines 131–153): starts all
false, ORs in each enabled bit test, then the aerosol rule on bits 6–7,
then the structural-nodata sentinel test `fmask == 255`. -/
def compute_mask (fl : MaskFlags) (aerosol_mode : String) (fmask : Nat) : Bool :=
  let m0 := false
  let m1 := if fl.cirrus then m0 || decide (0 < fmask &&& (1 <<< 0)) else m0
  let m2 := if fl.cloud then m1 || decide (0 < fmask &&& (1 <<< 1)) else m1
  let m3 := if fl.adj then m2 || decide (0 < fmask &&& (1 <<< 2)) else m2
  let m4 := if fl.shadow then m3 || decide (0 < fmask &&& (1 <<< 3)) else m3
  let m5 := if fl.snow then m4 || decide (0 < fmask &&& (1 <<< 4)) else m4
  let m6 := if fl.water then m5 || decide (0 < fmask &&& (1 <<< 5)) else m5
  let aerosol_level := (fmask >>> 6) &&& 3
  let m7 :=
    if aerosol_mode = "LOW" then m6 || decide (1 ≤ aerosol_level)
    else if aerosol_mode = "MODERATE" then m6 || decide (2 ≤ aerosol_level)
    else if aerosol_mode = "HIGH" then m6 || (aerosol_level == 3)
    else m6
  m7 || (fmask == 255)

/-!
### `hls_utils.py` — `get_valid_range` (lines 76–94)

The function is parameterised by the float parser `pf` (Python `float`,
returning `none` where `float()` would raise `ValueError`) and the
environment `env` (`os.environ.get`, `none` when the variable is unset).
The Python `try`/`except (ValueError, IndexError)` that falls back to the
defaults is modelled by the `Option` matches; the function is total.
-/

/-- Split a character list at every occurrence of `sep` (Python
`str.split(sep)` semantics: `"" → [""]`, separators at the ends produce
empty pieces). -/
def splitChars (sep : Char) : List Char → List (List Char)
  | [] => [[]]
  | c :: cs =>
    if c == sep then [] :: splitChars sep cs
    else
      match splitChars sep cs with
      | [] => [[c]]
      | g :: gs => (c :: g) :: gs

/-- Python `str.split(sep)` for a one-character separator. -/
def splitOnChar (sep : Char) (s : String) : List String :=
  (splitChars sep s.toList).map (fun cs => String.mk cs)

/-- The `defaults` dict plus its `.get(vi_type, (-1.0, 1.0))` lookup. -/
def defaultRange (vi : String) : ℚ × ℚ :=
  if vi = "NDVI" then (-1, 1)
  else if vi = "EVI2" then (-1, 2)
  else if vi = "NIRv" then (-1/2, 1)
  else (-1, 1)

/-- `get_valid_range(vi_type)`: parse `VALID_RANGE_{vi}` as "min,max", falling
back to the per-VI default when the variable is absent, empty, has fewer
than two comma-separated fields (IndexError) or a field `float()` rejects
(ValueError). -/
def get_valid_range (pf : String → Option ℚ) (env : String → Option String)
    (vi : String) : ℚ × ℚ :=
  let raw := (env ("VALID_RANGE_" ++ vi)).getD ""
  if raw = "" then defaultRange vi
  else
    match splitOnChar ',' raw with
    | p0 :: p1 :: _ =>
      match pf p0, pf p1 with
      | some a, some b => (a, b)
      | _, _ => defaultRange vi
    | _ => defaultRange vi

/-- Concrete float parser used by witnesses: parses "0.5" and "1" only. -/
def pfW : String → Option ℚ :=
  fun s => if s = "0.5" then some (1/2) else if s = "1" then some 1 else none

/-- Concrete environment used by witnesses: every variable is "0.5,1". -/
def envW : String → Option String := fun _ => some "0.5,1"

/-!
### `05_hls_outlier_reproject.py` — outlier statistics (lines 81–116)

The per-pixel time series of a cube is a `List FVal`.  Both `where` steps
of the source replace the masked-out entries by NaN; `count` counts the
non-NaN entries and `mean(dim='time', skipna=True)` averages them (NaN
when none remain).
-/

/-- Line 81: `clean_da = da.where(da < 1e30)` — screen NetCDF fill values. -/
def clean05 (v : FVal) : FVal :=
  if v.lt (.fin (10 ^ 30)) then v else .nan

/-- Line 86: `outlier_data = clean_da.where((clean_da < vmin) | (clean_da > vmax))`,
applied to one pixel-time value. -/
def outlierVal05 (vmin vmax : ℚ) (v : FVal) : FVal :=
  if (clean05 v).lt (.fin vmin) || (FVal.fin vmax).lt (clean05 v) then clean05 v
  else .nan

/-- xarray `count` over the time axis: the number of non-NaN entries. -/
def countNonNaN (xs : List FVal) : Nat :=
  (xs.filter (fun v => !v.isNaN)).length

/-- xarray `mean(dim='time', skipna=True)`: NaN when no non-NaN entry
remains, otherwise sum of the survivors divided by their number. -/
def meanSkipNaN (xs : List FVal) : FVal :=
  let ys := xs.filter (fun v => !v.isNaN)
  if ys.length = 0 then .nan
  else (ys.foldl FVal.add (.fin 0)).div (.fin ys.length)

/-- Line 109: `outlier_count = outlier_data.count(dim='time')` at one pixel. -/
def outlier_count05 (vmin vmax : ℚ) (series : List FVal) : Nat :=
  countNonNaN (series.map (outlierVal05 vmin vmax))

/-- Line 99: `outlier_mean = outlier_data.mean(dim='time', skipna=True)` at
one pixel. -/
def outlier_mean05 (vmin vmax : ℚ) (series : List FVal) : FVal :=
  meanSkipNaN (series.map (outlierVal05 vmin vmax))

/-- The predicate that actually characterises step 05's outlier set: the
value is not NaN, passes the `< 1e30` fill screen, and lies strictly
outside `[vmin, vmax]`. -/
def outlier05_pred (vmin vmax : ℚ) (v : FVal) : Bool :=
  !v.isNaN && v.lt (.fin (10 ^ 30)) && (v.lt (.fin vmin) || (FVal.fin vmax).lt v)

/-- `11_hls_outlier_gpkg.py` lines 128–131:
`outlier_mask = np.isfinite(data_chunk) & ((data_chunk < vmin) | (data_chunk > vmax))`. -/
def outlierMask11 (vmin vmax : ℚ) (v : FVal) : Bool :=
  v.isFinite && (v.lt (.fin vmin) || (FVal.fin vmax).lt v)

/-!
### `03_hls_netcdf_build.py` — temporal cube construction and merging

A data plane is a rectangular grid of values; a cube carries the time
axis (acquisition dates as days since 1970-01-01, as step 03 stores them),
per-time sensor labels, data planes, the shared pixel-center coordinate
arrays, and the CRS WKT string.  Raster reads are an explicit function
`String → Option Plane` (`none` = the `rasterio.open`/read exception).
-/

/-- One time step's data plane (rows of pixel values). -/
abbrev Plane := List (List FVal)

/-- An all-NaN plane of the given height and width. -/
def nanPlane (h w : Nat) : Plane :=
  List.replicate h (List.replicate w FVal.nan)

/-- `data.shape == (height, width)` — the shape check of line 95. -/
def planeShapeOk (h w : Nat) (p : Plane) : Bool :=
  p.length == h && p.all (fun row => row.length == w)

/-- One VI GeoTIFF product discovered for a tile: path, sensor label and
acquisition date (days since 1970-01-01, the unit step 03 writes). -/
structure VIFile where
  path : String
  sensor : String
  date : Int
deriving DecidableEq, Repr

/-- A per-(tile, index) temporal cube as written by step 03: time values,
sensor labels and data planes indexed in the same order, plus the x/y
pixel-center coordinate arrays and the CRS WKT. -/
structure Cube where
  times : List Int
  sensors : List String
  planes : List Plane
  x : List ℚ
  y : List ℚ
  crs : String
deriving DecidableEq, Repr

/-- `process_netcdf_chunk` lines 90–102: read one granule's plane; on a
read failure or a shape mismatch against the declared grid the plane is
filled with NaN instead of aborting the chunk. -/
def readGranulePlane (read : String → Option Plane) (h w : Nat)
    (f : VIFile) : Plane :=
  match read f.path with
  | some data => if planeShapeOk h w data then data else nanPlane h w
  | none => nanPlane h w

/-- `process_netcdf_chunk`: build one (sub-)cube from a file list, with the
x/y coordinate arrays and CRS supplied once by `run` (taken from the first
product of the tile).  With a single chunk this is also the unchunked
whole-cube build. -/
def buildChunkCube (x y : List ℚ) (crs : String)
    (read : String → Option Plane) (files : List VIFile) : Cube :=
  { times := files.map (·.date)
    sensors := files.map (·.sensor)
    planes := files.map (readGranulePlane read y.length x.length)
    x := x
    y := y
    crs := crs }

/-- `run` lines 282–283: split the date-sorted file list into consecutive
chunks of `n` files (`files[start : start + chunk_size]`).  Total for the
empty list; for `n = 0` (which makes Python's `range` raise) it degrades
to chunks of one, a case excluded by the theorems' `0 < n` hypothesis. -/
def chunksOf (n : Nat) : List VIFile → List (List VIFile)
  | [] => []
  | a :: l => (a :: l.take (n - 1)) :: chunksOf n (l.drop (n - 1))
termination_by l => l.length
decreasing_by simp only [List.length_drop, List.length_cons]; omega

/-- `merge_chunks` lines 150–216: the x/y coordinate arrays and the CRS
are read from the FIRST chunk only; every chunk's time values, data and
sensor labels are then concatenated in chunk order.  The only way the copy
loop can fail is the netCDF broadcast error raised when a later chunk's
grid dimensions differ from the first's (`none`); coordinate VALUES and
the CRS of the later chunks are never compared against the first. -/
def mergeCubes : List Cube → Option Cube
  | [] => none
  | c0 :: rest =>
    if rest.all (fun c => c.y.length == c0.y.length && c.x.length == c0.x.length) then
      some { times := ((c0 :: rest).map Cube.times).flatten
             sensors := ((c0 :: rest).map Cube.sensors).flatten
             planes := ((c0 :: rest).map Cube.planes).flatten
             x := c0.x
             y := c0.y
             crs := c0.crs }
    else none

/-- `collect_files` lines 244–248: sort each (tile, index) file list by
acquisition date ascending (Python's stable sort). -/
def sortByDate (l : List VIFile) : List VIFile :=
  l.mergeSort (fun a b => decide (a.date ≤ b.date))

/-- Concrete chunk cube (1×1 grid) used by the merge counterexample. -/
def chunkA : Cube :=
  { times := [18262], sensors := ["L30"], planes := [[[FVal.fin 0]]],
    x := [500015], y := [4000015], crs := "EPSG:32634" }

/-- A second 1×1 chunk whose x coordinates and CRS differ from `chunkA`. -/
def chunkB : Cube :=
  { times := [18270], sensors := ["S30"], planes := [[[FVal.fin 1]]],
    x := [600015], y := [4000015], crs := "EPSG:32635" }

/-- A concrete discovered product (later date), used by witnesses. -/
def vfA : VIFile :=
  { path := "HLS.S30.T34HBH.2020015T084601.v2.0.NDVI.tif",
    sensor := "S30", date := 18275 }

/-- A concrete discovered product (earlier date), used by witnesses. -/
def vfB : VIFile :=
  { path := "HLS.L30.T34HBH.2020005T084601.v2.0.NDVI.tif",
    sensor := "L30", date := 18265 }

/-!
### `03_hls_netcdf_build.py` — pixel-center coordinates (`run`, lines 272–276)

`transform.c`/`transform.f` are the top-left CORNER of pixel (0,0) and
`transform.a`/`transform.e` the pixel steps;
`x_coords = transform.c + transform.a * (np.arange(width) + 0.5)`.
-/

/-- The stored x coordinate array: centers, not corners. -/
def xCoords (c a : ℚ) (width : Nat) : List ℚ :=
  (List.range width).map (fun (i : ℕ) => c + a * ((i : ℚ) + 1/2))

/-- The stored y coordinate array: centers, not corners. -/
def yCoords (f e : ℚ) (height : Nat) : List ℚ :=
  (List.range height).map (fun (j : ℕ) => f + e * ((j : ℚ) + 1/2))

/-!
### Reprojection call sites (steps 04, 05, 09, 10)

All four step files import `reproject_resolution` from `hls_utils`, yet
`src/hls_utils.py` does not define it; only the call sites are in the
sources.  It is therefore modelled from the spec below.
-/

/-- Native unit of a coordinate reference system. -/
inductive CRSUnit where
  | meter
  | degree
deriving DecidableEq, Repr

/-- Modelled from the spec: `reproject_resolution` is imported from
`hls_utils` by steps 04, 05, 09 and 10 but is missing from
`src/hls_utils.py`.  The spec states the target resolution "is derived
deterministically from the target CRS's native unit (e.g., a fixed meter
value for projected meter-based references)".  It is modelled as a fixed
per-unit value (`resForUnit`) applied to the unit of the target CRS
(`unitOf`), i.e. a deterministic function of the target CRS alone. -/
def reproject_resolution (resForUnit : CRSUnit → ℚ)
    (unitOf : String → CRSUnit) (target_crs : String) : ℚ :=
  resForUnit (unitOf target_crs)

/-- The arguments a worker passes to `raster.rio.reproject`. -/
structure ReprojectArgs where
  dst_crs : String
  resolution : ℚ
deriving DecidableEq, Repr

/-- `04_hls_mean_reproject.py` line 84: the reproject call for the temporal
mean.  The source cube (whose own grid spacing is recoverable from its
coordinate arrays) is in scope in the worker but takes no part in the
resolution argument. -/
def step04_reproject_call (resForUnit : CRSUnit → ℚ)
    (unitOf : String → CRSUnit) (target_crs : String) (_src : Cube) :
    ReprojectArgs :=
  ⟨target_crs, reproject_resolution resForUnit unitOf target_crs⟩

/-- `05_hls_outlier_reproject.py` line 102: reproject call for the outlier mean. -/
def step05_mean_reproject_call (resForUnit : CRSUnit → ℚ)
    (unitOf : String → CRSUnit) (target_crs : String) (_src : Cube) :
    ReprojectArgs :=
  ⟨target_crs, reproject_resolution resForUnit unitOf target_crs⟩

/-- `05_hls_outlier_reproject.py` line 112: reproject call for the outlier count. -/
def step05_count_reproject_call (resForUnit : CRSUnit → ℚ)
    (unitOf : String → CRSUnit) (target_crs : String) (_src : Cube) :
    ReprojectArgs :=
  ⟨target_crs, reproject_resolution resForUnit unitOf target_crs⟩

/-- `09_hls_count_valid_mosaic.py` line 108: reproject call for count_valid. -/
def step09_reproject_call (resForUnit : CRSUnit → ℚ)
    (unitOf : String → CRSUnit) (target_crs : String) (_src : Cube) :
    ReprojectArgs :=
  ⟨target_crs, reproject_resolution resForUnit unitOf target_crs⟩

/-- `10_hls_timeseries_mosaic.py` line 198: reproject call for the window mean. -/
def step10_mean_reproject_call (resForUnit : CRSUnit → ℚ)
    (unitOf : String → CRSUnit) (target_crs : String) (_src : Cube) :
    ReprojectArgs :=
  ⟨target_crs, reproject_resolution resForUnit unitOf target_crs⟩

/-- `10_hls_timeseries_mosaic.py` line 199: reproject call for the window count. -/
def step10_count_reproject_call (resForUnit : CRSUnit → ℚ)
    (unitOf : String → CRSUnit) (target_crs : String) (_src : Cube) :
    ReprojectArgs :=
  ⟨target_crs, reproject_resolution resForUnit unitOf target_crs⟩

/-!
### Restart behaviour of each stage

What a stage does with one unit of work when it encounters (or not) that
unit's output artifact(s) on disk.  `onDisk` is `os.path.exists`.
-/

/-- What a stage decides to do with one unit of work. -/
inductive UnitAction where
  | skip
  | compute
  | removeThenCompute
deriving DecidableEq, Repr

/-- `02_hls_vi_calc.py` lines 110–113: the output paths this granule needs,
one per wanted VI, in the fixed NDVI, EVI2, NIRv order. -/
def neededOutputs (wanted : List String) (outputDir basename : String) :
    List String :=
  (["NDVI", "EVI2", "NIRv"].filter (fun vi => wanted.contains vi)).map
    (fun vi => outputDir ++ "/" ++ basename ++ "." ++ vi ++ ".tif")

/-- `02_hls_vi_calc.py` lines 115–116: skip the granule iff every needed
output already exists. -/
def process_granule_action (wanted : List String) (outputDir basename : String)
    (onDisk : String → Bool) : UnitAction :=
  if (neededOutputs wanted outputDir basename).all onDisk then .skip
  else .compute

/-- `04_hls_mean_reproject.py` lines 55–56: skip iff the output GeoTIFF exists. -/
def step04_action (onDisk : String → Bool) (outputPath : String) : UnitAction :=
  if onDisk outputPath then .skip else .compute

/-- `05_hls_outlier_reproject.py` lines 61–62: skip iff BOTH outputs exist. -/
def step05_action (onDisk : String → Bool) (meanPath countPath : String) :
    UnitAction :=
  if onDisk meanPath && onDisk countPath then .skip else .compute

/-- `06_hls_mean_mosaic.py` lines 51–52: skip iff the mosaic exists. -/
def step06_action (onDisk : String → Bool) (outputPath : String) : UnitAction :=
  if onDisk outputPath then .skip else .compute

/-- `07_hls_outlier_mean_mosaic.py` lines 52–53: skip iff the mosaic exists. -/
def step07_action (onDisk : String → Bool) (outputPath : String) : UnitAction :=
  if onDisk outputPath then .skip else .compute

/-- `08_hls_outlier_count_mosaic.py` lines 53–54: skip iff the mosaic exists. -/
def step08_action (onDisk : String → Bool) (outputPath : String) : UnitAction :=
  if onDisk outputPath then .skip else .compute

/-- `09_hls_count_valid_mosaic.py` lines 176–179: skip iff the mosaic exists. -/
def step09_action (onDisk : String → Bool) (outputPath : String) : UnitAction :=
  if onDisk outputPath then .skip else .compute

/-- `10_hls_timeseries_mosaic.py` lines 343–347: a pre-existing stack is
REMOVED ("Removing existing stack") and the stack is rebuilt from scratch;
the unit is never skipped. -/
def step10_stack_prep (onDisk : String → Bool) (stackPath : String) :
    UnitAction :=
  if onDisk stackPath then .removeThenCompute else .compute

/-- `11_hls_outlier_gpkg.py` lines 196–198: a pre-existing GeoPackage is
removed (`os.remove`) and rewritten; the unit is never skipped. -/
def step11_gpkg_prep (onDisk : String → Bool) (outPath : String) :
    UnitAction :=
  if onDisk outPath then .removeThenCompute else .compute

/-!
### `10_hls_timeseries_mosaic.py` — `parse_windows` (lines 67–122)

The regex `([A-Za-z0-9_]+):(\d{4}-\d{2}-\d{2})\|(\d{4}-\d{2}-\d{2})` is
implemented directly: the label class contains no ':' and the date part no
':' or '|', so a full match factors uniquely at the single ':' and the
single '|'.  `pd.Timestamp("YYYY-MM-DD")` parse success is modelled as
Gregorian calendar-date validity, and Timestamp comparison as
lexicographic comparison of (year, month, day).
-/

/-- One character of the label class `[A-Za-z0-9_]`. -/
def isWordChar (c : Char) : Bool :=
  c.isAlpha || c.isDigit || c == '_'

/-- Fold a digit string into a number. -/
def digitsToNat (cs : List Char) : Nat :=
  cs.foldl (fun n c => 10 * n + (c.toNat - 48)) 0

/-- A calendar date as parsed from `YYYY-MM-DD`. -/
structure PDate where
  year : Nat
  month : Nat
  day : Nat
deriving DecidableEq, Repr

/-- Match the shape `\d{4}-\d{2}-\d{2}` and read the three fields. -/
def parseDateShape (s : String) : Option PDate :=
  match s.toList with
  | [y1, y2, y3, y4, h1, m1, m2, h2, d1, d2] =>
    if y1.isDigit && y2.isDigit && y3.isDigit && y4.isDigit && h1 == '-' &&
        m1.isDigit && m2.isDigit && h2 == '-' && d1.isDigit && d2.isDigit then
      some ⟨digitsToNat [y1, y2, y3, y4], digitsToNat [m1, m2],
            digitsToNat [d1, d2]⟩
    else none
  | _ => none

/-- Gregorian leap year. -/
def isLeap (y : Nat) : Bool :=
  (y % 4 == 0 && y % 100 != 0) || (y % 400 == 0)

/-- Days in a month of the Gregorian calendar. -/
def daysInMonth (y m : Nat) : Nat :=
  if m = 2 then (if isLeap y then 29 else 28)
  else if m = 4 || m = 6 || m = 9 || m = 11 then 30
  else 31

/-- Calendar validity of a parsed date. -/
def validDate (d : PDate) : Bool :=
  decide (1 ≤ d.month) && decide (d.month ≤ 12) && decide (1 ≤ d.day) &&
    decide (d.day ≤ daysInMonth d.year d.month)

/-- `pd.Timestamp(s)` on a `\d{4}-\d{2}-\d{2}` string: the shape must match
and the fields must form a valid calendar date. -/
def parseTimestamp (s : String) : Option PDate :=
  match parseDateShape s with
  | some d => if validDate d then some d else none
  | none => none

/-- `pd.Timestamp` order on dates: lexicographic on (year, month, day). -/
def dateLe (a b : PDate) : Bool :=
  decide (a.year < b.year) ||
    (a.year == b.year &&
      (decide (a.month < b.month) ||
        (a.month == b.month && decide (a.day ≤ b.day))))

/-- One parsed time window. -/
structure Window where
  label : String
  start : PDate
  stop : PDate
deriving DecidableEq, Repr

/-- `re.fullmatch` of the window regex, returning (label, start, end)
strings on success. -/
def matchToken (token : String) : Option (String × String × String) :=
  match splitOnChar ':' token with
  | [label, rest] =>
    if label.length > 0 && label.toList.all isWordChar then
      match splitOnChar '|' rest with
      | [s1, s2] =>
        if (parseDateShape s1).isSome && (parseDateShape s2).isSome then
          some (label, s1, s2)
        else none
      | _ => none
    else none
  | _ => none

/-- Handle one window token exactly in the source's check order: regex
match, duplicate-label check against `seen_labels`, date parse, then the
start-after-end check. -/
def parseOneToken (seen : List String) (token : String) :
    Except String Window :=
  match matchToken token with
  | none => .error ("Invalid window token: " ++ token)
  | some (label, s1, s2) =>
    if seen.contains label then
      .error ("Duplicate window label " ++ label)
    else
      match parseTimestamp s1, parseTimestamp s2 with
      | some d1, some d2 =>
        if dateLe d1 d2 then .ok ⟨label, d1, d2⟩
        else .error ("Window start is after end")
      | _, _ => .error ("Could not parse dates in window")

/-- The token loop of `parse_windows` (lines 85–120), carrying
`seen_labels` and the windows accumulated so far (in reverse); blank
tokens are skipped (`if not token: continue`) and an empty final window
list is an error (this also covers the initial empty-string check). -/
def parseWindowsGo (tokens : List String) (seen : List String)
    (acc : List Window) : Except String (List Window) :=
  match tokens with
  | [] => if acc.isEmpty then .error "No valid windows" else .ok acc.reverse
  | t :: ts =>
    if t = "" then parseWindowsGo ts seen acc
    else
      match parseOneToken seen t with
      | .error e => .error e
      | .ok w => parseWindowsGo ts (w.label :: seen) (w :: acc)

/-- Python's `str.split()` on whitespace: split at spaces and drop the
empty pieces (runs of whitespace collapse; no empty token survives). -/
def pyTokens (s : String) : List String :=
  (splitOnChar ' ' s).filter (fun t => t ≠ "")

/-- `parse_windows(windows_str)`. -/
def parse_windows (windows_str : String) : Except String (List Window) :=
  parseWindowsGo (pyTokens windows_str) [] []

/-- A token the whole pipeline accepts: regex match, two valid calendar
dates, start not after end. -/
def goodToken (t : String) : Bool :=
  match matchToken t with
  | some (_, s1, s2) =>
    match parseTimestamp s1, parseTimestamp s2 with
    | some d1, some d2 => dateLe d1 d2
    | _, _ => false
  | none => false

/-- The label of a token that matches the window regex. -/
def tokenLabel (t : String) : Option String :=
  (matchToken t).map (·.1)

/-- Whether window parsing succeeded (no ValueError raised). -/
def parseOk (r : Except String (List Window)) : Bool :=
  match r with
  | .ok _ => true
  | .error _ => false

/-!
## Theorems
-/

/-- C8: Index computation is a deterministic pure function of the
(red, nir) arrays — `calculate_indices` is a total Lean function — with
NDVI = (nir−red)/(nir+red), EVI2 = 2.5(nir−red)/(nir+2.4·red+1),
NIRv = NDVI·nir.  For red = 0.2, nir = 0.4 it yields
NDVI = 0.2/0.6 = 1/3, EVI2 = 0.5/1.88 = 25/94, NIRv = (1/3)·0.4 = 2/15;
for red = nir = 0 the 0/0 division yields NaN for NDVI and NIRv silently
(the function returns a value; no exception path exists). -/
theorem calculate_indices_values :
    calculate_indices [FVal.fin (1/5)] [FVal.fin (2/5)]
        = ([FVal.fin (1/3)], [FVal.fin (25/94)], [FVal.fin (2/15)])
      ∧ calculate_indices [FVal.fin 0] [FVal.fin 0]
        = ([FVal.nan], [FVal.fin 0], [FVal.nan]) := by
  constructor <;>
    norm_num [calculate_indices, List.zipWith, List.map, FVal.sub, FVal.neg,
      FVal.add, FVal.mul, FVal.div]

/-- Folding one enabled-flag step of the mask loop into an OR. -/
theorem maskStepOr (c m b : Bool) : (if c then m || b else m) = (m || (c && b)) := by
  cases c <;> simp

/-- Folding the three-way aerosol if-chain into an OR. -/
theorem maskAerosolOr (p1 p2 p3 : Prop) [Decidable p1] [Decidable p2]
    [Decidable p3] (m a1 a2 a3 : Bool) :
    (if p1 then m || a1 else if p2 then m || a2 else if p3 then m || a3 else m)
      = (m || (if p1 then a1 else if p2 then a2 else if p3 then a3 else false)) := by
  split_ifs <;> simp

/-- C5: for every bitmask value, every combination of the six enabled
flags and every aerosol mode, the exclusion mask equals the logical OR of
the enabled bit tests (bits 0–5), the aerosol condition of the selected
mode on level = bits 6–7 (LOW: ≥1, MODERATE: ≥2, HIGH: =3, other: none),
and the sentinel test `fmask == 255`; with no flags enabled and mode NONE
only the 255 pixels are excluded. -/
theorem compute_mask_spec (fl : MaskFlags) (mode : String) (v : Nat) :
    (compute_mask fl mode v
      = ((fl.cirrus && decide (0 < v &&& (1 <<< 0)))
          || (fl.cloud && decide (0 < v &&& (1 <<< 1)))
          || (fl.adj && decide (0 < v &&& (1 <<< 2)))
          || (fl.shadow && decide (0 < v &&& (1 <<< 3)))
          || (fl.snow && decide (0 < v &&& (1 <<< 4)))
          || (fl.water && decide (0 < v &&& (1 <<< 5)))
          || (if mode = "LOW" then decide (1 ≤ (v >>> 6) &&& 3)
              else if mode = "MODERATE" then decide (2 ≤ (v >>> 6) &&& 3)
              else if mode = "HIGH" then ((v >>> 6) &&& 3) == 3
              else false)
          || (v == 255)))
    ∧ compute_mask ⟨false, false, false, false, false, false⟩ "NONE" v
        = (v == 255) := by
  have hor : ∀ (g : MaskFlags) (md : String) (w : Nat),
      compute_mask g md w
        = ((g.cirrus && decide (0 < w &&& (1 <<< 0)))
            || (g.cloud && decide (0 < w &&& (1 <<< 1)))
            || (g.adj && decide (0 < w &&& (1 <<< 2)))
            || (g.shadow && decide (0 < w &&& (1 <<< 3)))
            || (g.snow && decide (0 < w &&& (1 <<< 4)))
            || (g.water && decide (0 < w &&& (1 <<< 5)))
            || (if md = "LOW" then decide (1 ≤ (w >>> 6) &&& 3)
                else if md = "MODERATE" then decide (2 ≤ (w >>> 6) &&& 3)
                else if md = "HIGH" then ((w >>> 6) &&& 3) == 3
                else false)
            || (w == 255)) := by
    intro g md w
    simp only [compute_mask, maskStepOr, maskAerosolOr]
    simp only [Bool.false_or, Bool.or_assoc]
  refine ⟨hor fl mode v, ?_⟩
  rw [hor]
  simp

/-- C10: `get_valid_range` is total (it is a Lean function; the Python
exceptions are the `none` branches of the parser): when the
`VALID_RANGE_{vi}` variable is present and its first two comma-separated
fields parse as floats it returns that pair, and otherwise it returns the
built-in default — NDVI (−1, 1), EVI2 (−1, 2), NIRv (−0.5, 1), and
(−1, 1) for any other index name. -/
theorem get_valid_range_spec (pf : String → Option ℚ)
    (env : String → Option String) (vi : String) :
    (∀ raw p0 p1 rest a b,
        env ("VALID_RANGE_" ++ vi) = some raw →
        splitOnChar ',' raw = p0 :: p1 :: rest →
        pf p0 = some a → pf p1 = some b →
        get_valid_range pf env vi = (a, b))
    ∧ (env ("VALID_RANGE_" ++ vi) = none →
        get_valid_range pf env vi = defaultRange vi)
    ∧ (env ("VALID_RANGE_" ++ vi) = some "" →
        get_valid_range pf env vi = defaultRange vi)
    ∧ (∀ raw p0 p1 rest,
        env ("VALID_RANGE_" ++ vi) = some raw →
        splitOnChar ',' raw = p0 :: p1 :: rest →
        (pf p0 = none ∨ pf p1 = none) →
        get_valid_range pf env vi = defaultRange vi)
    ∧ (∀ raw p0,
        env ("VALID_RANGE_" ++ vi) = some raw →
        splitOnChar ',' raw = [p0] →
        get_valid_range pf env vi = defaultRange vi)
    ∧ defaultRange "NDVI" = (-1, 1)
    ∧ defaultRange "EVI2" = (-1, 2)
    ∧ defaultRange "NIRv" = (-1/2, 1)
    ∧ (vi ≠ "NDVI" → vi ≠ "EVI2" → vi ≠ "NIRv" →
        defaultRange vi = (-1, 1)) := by
  have hemp : splitOnChar ',' "" = [""] := rfl
  refine ⟨?_, ?_, ?_, ?_, ?_, rfl, rfl, rfl, ?_⟩
  · intro raw p0 p1 rest a b henv hsplit hp0 hp1
    have hraw : raw ≠ "" := by
      intro h
      subst h
      rw [hemp] at hsplit
      simp at hsplit
    simp only [get_valid_range, henv, Option.getD_some, if_neg hraw, hsplit,
      hp0, hp1]
  · intro henv
    simp [get_valid_range, henv]
  · intro henv
    simp [get_valid_range, henv]
  · intro raw p0 p1 rest henv hsplit hbad
    have hraw : raw ≠ "" := by
      intro h
      subst h
      rw [hemp] at hsplit
      simp at hsplit
    simp only [get_valid_range, henv, Option.getD_some, if_neg hraw, hsplit]
    rcases hbad with h | h <;> rw [h] <;> cases pf p0 <;> cases pf p1 <;> rfl
  · intro raw p0 henv hsplit
    by_cases hraw : raw = ""
    · simp [get_valid_range, henv, hraw]
    · simp [get_valid_range, henv, if_neg hraw, hsplit]
  · intro h1 h2 h3
    simp [defaultRange, h1, h2, h3]

/-- C10 witness: the theorem applied at a concrete parser and environment
("0.5,1" for every variable) and at `vi = "NDVI"`. -/
theorem get_valid_range_spec_witness :
    get_valid_range pfW envW "NDVI" = (1/2, 1) :=
  (get_valid_range_spec pfW envW "NDVI").1 "0.5,1" "0.5" "1" [] (1/2) 1
    rfl rfl rfl rfl

/-- C7: for an affine transform with x-origin `c` and pixel width `a`, the
cube's stored x coordinate for column `i < width` is the pixel center
`c + a * (i + 0.5)`, and symmetrically for y with origin `f` and step `e`;
for c = 500000, a = 30 the first center is 500015, not the corner 500000. -/
theorem pixel_center_coords (c a f e : ℚ) (w h i j : Nat)
    (hi : i < w) (hj : j < h) :
    (xCoords c a w).get
⟨i, by simp only [xCoords, List.length_map, List.length_range]; exact hi⟩
      = c + a * ((i : ℚ) + 1/2)
    ∧ (yCoords f e h).get
⟨j, by simp only [yCoords, List.length_map, List.length_range]; exact hj⟩
      = f + e * ((j : ℚ) + 1/2)
    ∧ xCoords 500000 30 1 = [500015]
    ∧ (500000 : ℚ) + 30 * (0 + 1/2) ≠ 500000 := by
  refine ⟨?_, ?_, ?_, by norm_num⟩
  · simp only [xCoords, List.get_eq_getElem, List.getElem_map,
      List.getElem_range]
  · simp only [yCoords, List.get_eq_getElem, List.getElem_map,
      List.getElem_range]
  · norm_num [xCoords, List.range_succ]

/-- C7 witness: the theorem applied at the spec's concrete affine origin
(c = 500000, a = 30), width 1, column 0. -/
theorem pixel_center_coords_witness :
    (0 : Nat) < 1 ∧
      (xCoords 500000 30 1).get
⟨0, by simp only [xCoords, List.length_map, List.length_range]; decide⟩
        = 500000 + 30 * (((0 : Nat) : ℚ) + 1/2) :=
  ⟨by decide,
   (pixel_center_coords 500000 30 0 0 1 1 0 0 (by decide) (by decide)).1⟩

/-- C1: in every reprojection performed by steps 04, 05, 09 and 10, the
resolution argument passed to `rio.reproject` equals
`reproject_resolution` applied to the target CRS alone (derived from the
target CRS's native unit via `unitOf`), and is independent of the source
cube — in particular it is never taken or defaulted from the source
raster's resolution. -/
theorem reproject_resolution_target_only (resForUnit : CRSUnit → ℚ)
    (unitOf : String → CRSUnit) (tc : String) (src src' : Cube) :
    ((step04_reproject_call resForUnit unitOf tc src).resolution
        = reproject_resolution resForUnit unitOf tc
      ∧ step04_reproject_call resForUnit unitOf tc src
          = step04_reproject_call resForUnit unitOf tc src')
    ∧ ((step05_mean_reproject_call resForUnit unitOf tc src).resolution
        = reproject_resolution resForUnit unitOf tc
      ∧ step05_mean_reproject_call resForUnit unitOf tc src
          = step05_mean_reproject_call resForUnit unitOf tc src')
    ∧ ((step05_count_reproject_call resForUnit unitOf tc src).resolution
        = reproject_resolution resForUnit unitOf tc
      ∧ step05_count_reproject_call resForUnit unitOf tc src
          = step05_count_reproject_call resForUnit unitOf tc src')
    ∧ ((step09_reproject_call resForUnit unitOf tc src).resolution
        = reproject_resolution resForUnit unitOf tc
      ∧ step09_reproject_call resForUnit unitOf tc src
          = step09_reproject_call resForUnit unitOf tc src')
    ∧ ((step10_mean_reproject_call resForUnit unitOf tc src).resolution
        = reproject_resolution resForUnit unitOf tc
      ∧ step10_mean_reproject_call resForUnit unitOf tc src
          = step10_mean_reproject_call resForUnit unitOf tc src')
    ∧ ((step10_count_reproject_call resForUnit unitOf tc src).resolution
        = reproject_resolution resForUnit unitOf tc
      ∧ step10_count_reproject_call resForUnit unitOf tc src
          = step10_count_reproject_call resForUnit unitOf tc src') :=
  ⟨⟨rfl, rfl⟩, ⟨rfl, rfl⟩, ⟨rfl, rfl⟩, ⟨rfl, rfl⟩, ⟨rfl, rfl⟩, ⟨rfl, rfl⟩⟩

/-- C4 counterexample: in step 10 a unit whose output stack already exists
on disk is NOT skipped — the pre-existing stack is removed and rebuilt, so
the pre-existing artifact is not left unchanged. -/
theorem timeseries_stack_counterexample :
    step10_stack_prep (fun _ => true) "HLS_TimeSeries_NDVI_Mean_EPSG6350.tif"
        = UnitAction.removeThenCompute
      ∧ UnitAction.removeThenCompute ≠ UnitAction.skip := by
  exact ⟨rfl, by decide⟩

/-- C4 amended: steps 02 and 04–09 skip a unit exactly when its output
artifact(s) already exist (leaving them untouched), but the time-series
stack stage (step 10) and the outlier GeoPackage stage (step 11) never
skip: a pre-existing output is removed and the unit recomputed. -/
theorem skip_semantics_amended (onDisk : String → Bool)
    (wanted : List String) (dir base p q : String) :
    (process_granule_action wanted dir base onDisk = .skip
        ↔ (neededOutputs wanted dir base).all onDisk = true)
    ∧ (step04_action onDisk p = .skip ↔ onDisk p = true)
    ∧ (step05_action onDisk p q = .skip ↔ (onDisk p && onDisk q) = true)
    ∧ (step06_action onDisk p = .skip ↔ onDisk p = true)
    ∧ (step07_action onDisk p = .skip ↔ onDisk p = true)
    ∧ (step08_action onDisk p = .skip ↔ onDisk p = true)
    ∧ (step09_action onDisk p = .skip ↔ onDisk p = true)
    ∧ step10_stack_prep onDisk p ≠ .skip
    ∧ (step10_stack_prep onDisk p = .removeThenCompute ↔ onDisk p = true)
    ∧ step11_gpkg_prep onDisk p ≠ .skip
    ∧ (step11_gpkg_prep onDisk p = .removeThenCompute ↔ onDisk p = true) := by
  refine ⟨?_, ?_, ?_, ?_, ?_, ?_, ?_, ?_, ?_, ?_, ?_⟩ <;>
    first
      | (simp only [process_granule_action]
         split <;> simp_all)
      | (simp only [step04_action, step05_action, step06_action,
          step07_action, step08_action, step09_action, step10_stack_prep,
          step11_gpkg_prep]
         split <;> simp_all)

/-- C4 witness: the amended statement applied with every path present on
disk — step 04 reports a skip. -/
theorem skip_semantics_amended_witness :
    step04_action (fun _ => true) "T34HBH_NDVI_average_NDVI_EPSG6350.tif"
        = UnitAction.skip
      ↔ (fun (_ : String) => true) "T34HBH_NDVI_average_NDVI_EPSG6350.tif"
        = true :=
  (skip_semantics_amended (fun _ => true) [] "" ""
      "T34HBH_NDVI_average_NDVI_EPSG6350.tif" "x").2.1

/-- A step-05 pixel-time value survives both `where` filters exactly when
it is non-NaN, below the 1e30 fill screen, and strictly outside the valid
range. -/
theorem outlierVal05_isNaN (vmin vmax : ℚ) (v : FVal) :
    (!(outlierVal05 vmin vmax v).isNaN) = outlier05_pred vmin vmax v := by
  rcases v with q | _ | _ | _ <;>
    simp only [outlierVal05, clean05, outlier05_pred, FVal.lt, FVal.isNaN,
      FVal.isFinite, Bool.not_false, Bool.not_true, Bool.true_and,
      Bool.false_and, Bool.and_true, Bool.and_false] <;>
    split_ifs <;>
    simp_all [FVal.lt, FVal.isNaN]

/-- A surviving step-05 value is the original value. -/
theorem outlierVal05_eq_self (vmin vmax : ℚ) (v : FVal)
    (h : outlier05_pred vmin vmax v = true) :
    outlierVal05 vmin vmax v = v := by
  rcases v with q | _ | _ | _ <;>
    simp only [outlierVal05, clean05, outlier05_pred, FVal.lt, FVal.isNaN,
      FVal.isFinite, Bool.not_false, Bool.not_true, Bool.true_and,
      Bool.false_and, Bool.and_true, Bool.and_false] at h ⊢ <;>
    split_ifs <;>
    simp_all [FVal.lt, FVal.isNaN]

/-- The step-05 outlier predicate implies the value is not NaN. -/
theorem outlier05_pred_notNaN (vmin vmax : ℚ) (v : FVal)
    (h : outlier05_pred vmin vmax v = true) : (!v.isNaN) = true := by
  simp only [outlier05_pred, Bool.and_eq_true] at h
  exact h.1.1

/-- Filtering the NaN-masked step-05 series down to its non-NaN entries is
the same as filtering the raw series by the step-05 outlier predicate. -/
theorem filter_outlierVal05 (vmin vmax : ℚ) (series : List FVal) :
    (series.map (outlierVal05 vmin vmax)).filter (fun v => !v.isNaN)
      = series.filter (outlier05_pred vmin vmax) := by
  induction series with
  | nil => rfl
  | cons a l ih =>
    simp only [List.map_cons, List.filter_cons, outlierVal05_isNaN, ih]
    by_cases h : outlier05_pred vmin vmax a = true
    · simp [h, outlierVal05_eq_self vmin vmax a h]
    · simp [h]

/-- C2 counterexample: with valid range [-1, 1], the value −inf is counted
as an outlier by step 05 (it passes the `< 1e30` fill screen and is below
vmin) although it is not finite — so step 05's outlier_count differs from
the number of time steps whose value is finite and strictly outside the
range, contradicting the claim's if-and-only-if characterisation. -/
theorem outlier_step05_counterexample :
    outlier_count05 (-1) 1 [FVal.ninf] = 1
    ∧ [FVal.ninf].countP
        (fun v => v.isFinite && (v.lt (FVal.fin (-1)) || (FVal.fin 1).lt v)) = 0
    ∧ outlier_count05 (-1) 1 [FVal.ninf]
        ≠ [FVal.ninf].countP
            (fun v => v.isFinite && (v.lt (FVal.fin (-1)) || (FVal.fin 1).lt v)) := by
  refine ⟨rfl, rfl, by decide⟩

/-- C2 amended: step 11 classifies a pixel-time value as an outlier exactly
when it is finite and strictly outside [vmin, vmax]; step 05 instead
classifies it as an outlier exactly when it is non-NaN, passes the
`< 1e30` fill screen, and is strictly outside [vmin, vmax] (so −inf counts
and finite values ≥ 1e30 do not) — and step 05's outlier_count at a pixel
is the number of time steps satisfying that step-05 predicate, while its
outlier_mean is the arithmetic mean of exactly those values. -/
theorem outlier_semantics_amended (vmin vmax : ℚ) (series : List FVal) :
    outlier_count05 vmin vmax series
        = series.countP (outlier05_pred vmin vmax)
    ∧ outlier_mean05 vmin vmax series
        = meanSkipNaN (series.filter (outlier05_pred vmin vmax))
    ∧ ∀ v, outlierMask11 vmin vmax v
        = (v.isFinite && (v.lt (.fin vmin) || (FVal.fin vmax).lt v)) := by
  refine ⟨?_, ?_, fun v => rfl⟩
  · simp only [outlier_count05, countNonNaN, filter_outlierVal05]
    rw [List.countP_eq_length_filter]
  · have hcol : (series.filter (outlier05_pred vmin vmax)).filter
        (fun v => !v.isNaN) = series.filter (outlier05_pred vmin vmax) := by
      apply List.filter_eq_self.mpr
      intro v hv
      exact outlier05_pred_notNaN vmin vmax v (List.of_mem_filter hv)
    simp only [outlier_mean05, meanSkipNaN, filter_outlierVal05, hcol]

/-- C2 witness: the amended count identity at a concrete one-step series
holding the finite outlier value 2. -/
theorem outlier_semantics_amended_witness :
    outlier_count05 (-1) 1 [FVal.fin 2]
      = [FVal.fin 2].countP (outlier05_pred (-1) 1) :=
  (outlier_semantics_amended (-1) 1 [FVal.fin 2]).1

/-- C3 counterexample: two chunks with equal grid shapes but different x
coordinate arrays and different CRS descriptors merge successfully — a
merged cube IS produced from mismatched chunks, contradicting the claim
that a mismatch is a fatal error for the tile. -/
theorem merge_chunks_counterexample :
    (mergeCubes [chunkA, chunkB]).isSome = true
    ∧ chunkA.x ≠ chunkB.x ∧ chunkA.crs ≠ chunkB.crs := by
  refine ⟨rfl, by decide, by decide⟩

/-- C3 amended: `merge_chunks` performs no re-verification of the chunks'
x/y coordinate arrays or CRS: it reads them from the first chunk only and
concatenates every chunk whose grid dimensions match the first's, whatever
its coordinate values or CRS; the result carries the first chunk's
metadata.  (Only a grid-shape mismatch makes the copy, and hence the
merge, fail.) -/
theorem merge_chunks_no_verification (c0 : Cube) (rest : List Cube)
    (hdims : ∀ c ∈ rest, c.y.length = c0.y.length ∧ c.x.length = c0.x.length) :
    mergeCubes (c0 :: rest)
      = some { times := ((c0 :: rest).map Cube.times).flatten
               sensors := ((c0 :: rest).map Cube.sensors).flatten
               planes := ((c0 :: rest).map Cube.planes).flatten
               x := c0.x
               y := c0.y
               crs := c0.crs } := by
  simp only [mergeCubes]
  rw [if_pos]
  apply List.all_eq_true.mpr
  intro c hc
  have h := hdims c hc
  simp [h.1, h.2]

/-- C3 witness: the amended statement applied to the two concrete
same-shape chunks with mismatched x coordinates and CRS. -/
theorem merge_chunks_no_verification_witness :
    mergeCubes [chunkA, chunkB]
      = some { times := ([chunkA, chunkB].map Cube.times).flatten
               sensors := ([chunkA, chunkB].map Cube.sensors).flatten
               planes := ([chunkA, chunkB].map Cube.planes).flatten
               x := chunkA.x
               y := chunkA.y
               crs := chunkA.crs } :=
  merge_chunks_no_verification chunkA [chunkB] (by decide)

/-- Splitting a list into consecutive chunks and flattening them back
yields the original list. -/
theorem chunksOf_flatten (n : Nat) : ∀ l : List VIFile,
    (chunksOf n l).flatten = l
  | [] => by simp [chunksOf]
  | a :: l => by
    rw [chunksOf]
    simp only [List.flatten_cons]
    rw [chunksOf_flatten n (l.drop (n - 1))]
    simp [List.cons_append, List.take_append_drop]
termination_by l => l.length
decreasing_by simp only [List.length_drop, List.length_cons]; omega

/-- One unfolding of `chunksOf` on a nonempty list. -/
theorem chunksOf_cons (n : Nat) (a : VIFile) (l : List VIFile) :
    chunksOf n (a :: l)
      = (a :: l.take (n - 1)) :: chunksOf n (l.drop (n - 1)) := by
  rw [chunksOf]

/-- Merging the per-chunk cubes (all built over the same shared x/y/CRS)
concatenates them into the cube of the flattened file list. -/
theorem mergeCubes_map_build (x y : List ℚ) (crs : String)
    (read : String → Option Plane) (c : List VIFile)
    (cs : List (List VIFile)) :
    mergeCubes ((c :: cs).map (buildChunkCube x y crs read))
      = some (buildChunkCube x y crs read ((c :: cs).flatten)) := by
  simp only [List.map_cons, mergeCubes]
  rw [if_pos]
  · simp only [Option.some.injEq, ← List.map_cons]
    simp only [Cube.mk.injEq, List.map_map, buildChunkCube]
    refine ⟨?_, ?_, ?_, trivial, trivial, trivial⟩ <;>
      rw [List.map_flatten] <;>
      exact congrArg List.flatten (List.map_congr_left fun ch _ => rfl)
  · apply List.all_eq_true.mpr
    intro cube hcube
    rw [List.mem_map] at hcube
    obtain ⟨ch, _, rfl⟩ := hcube
    simp [buildChunkCube]

/-- C6: for every (nonempty) list of granule products for one tile and
index and every positive chunk size, the cube obtained by splitting the
date-sorted list into chunks, building per-chunk sub-cubes and merging
them by concatenation in chunk order equals the cube built from the same
products in one unchunked pass — time values, sensor labels and data
planes in content and order — and the resulting time axis is ascending by
acquisition date. -/
theorem chunked_merge_refines_unchunked (n : Nat) (hn : 0 < n)
    (l : List VIFile) (hl : l ≠ []) (x y : List ℚ) (crs : String)
    (read : String → Option Plane) :
    mergeCubes ((chunksOf n (sortByDate l)).map (buildChunkCube x y crs read))
        = some (buildChunkCube x y crs read (sortByDate l))
    ∧ List.Pairwise (fun s t : Int => s ≤ t)
        (buildChunkCube x y crs read (sortByDate l)).times := by
  constructor
  · obtain ⟨f, fs, hfs⟩ : ∃ f fs, sortByDate l = f :: fs := by
      cases hsort : sortByDate l with
      | nil =>
        exfalso
        apply hl
        have hperm := List.mergeSort_perm l
          (fun a b => decide (a.date ≤ b.date))
        rw [sortByDate] at hsort
        rw [hsort] at hperm
        exact (hperm.symm.eq_nil)
      | cons f fs => exact ⟨f, fs, rfl⟩
    rw [hfs, chunksOf_cons, mergeCubes_map_build, ← chunksOf_cons,
      chunksOf_flatten]
  · have hs := @List.sorted_mergeSort VIFile
      (fun a b => decide (a.date ≤ b.date))
      (fun a b c h1 h2 => by
        simp only [decide_eq_true_eq] at h1 h2 ⊢
        exact le_trans h1 h2)
      (fun a b => by
        simp only [Bool.or_eq_true, decide_eq_true_eq]
        exact le_total a.date b.date)
      l
    simp only [buildChunkCube, sortByDate]
    rw [List.pairwise_map]
    exact hs.imp (fun h => by simpa using h)

/-- C6 witness: chunk size 1 over two concrete products given in reverse
date order — the chunked merge equals the unchunked build and the time
axis comes out ascending. -/
theorem chunked_merge_refines_unchunked_witness :
    (0 : Nat) < 1 ∧ ([vfA, vfB] : List VIFile) ≠ []
    ∧ (mergeCubes ((chunksOf 1 (sortByDate [vfA, vfB])).map
          (buildChunkCube [500015] [4000015] "EPSG:32634" (fun _ => none)))
        = some (buildChunkCube [500015] [4000015] "EPSG:32634"
            (fun _ => none) (sortByDate [vfA, vfB]))
      ∧ List.Pairwise (fun s t : Int => s ≤ t)
          (buildChunkCube [500015] [4000015] "EPSG:32634" (fun _ => none)
            (sortByDate [vfA, vfB])).times) :=
  ⟨by decide, by decide,
   chunked_merge_refines_unchunked 1 (by decide) [vfA, vfB] (by decide)
     [500015] [4000015] "EPSG:32634" (fun _ => none)⟩

/-- The empty token matches nothing. -/
theorem tokenLabel_empty : tokenLabel "" = none := rfl


/-- Success characterisation of the token loop, for any starting
`seen_labels` and accumulator. -/
theorem parseWindowsGo_isOk (ts : List String) : ∀ (seen : List String)
    (acc : List Window),
    parseOk (parseWindowsGo ts seen acc) = true
      ↔ ((∀ t ∈ ts, t = "" ∨ goodToken t = true)
         ∧ (∀ lab ∈ ts.filterMap tokenLabel, lab ∉ seen)
         ∧ (ts.filterMap tokenLabel).Nodup
         ∧ (acc ≠ [] ∨ ∃ t ∈ ts, t ≠ "")) := by
  induction ts with
  | nil =>
    intro seen acc
    by_cases hacc : acc = []
    · subst hacc
      simp [parseWindowsGo, parseOk]
    · have hne : acc.isEmpty = false := by
        cases acc with
        | nil => exact absurd rfl hacc
        | cons a l => rfl
      simp [parseWindowsGo, parseOk, hne, hacc]
  | cons t ts ih =>
    intro seen acc
    by_cases ht : t = ""
    · subst ht
      rw [parseWindowsGo, if_pos rfl, ih]
      simp only [List.filterMap_cons, tokenLabel_empty, List.mem_cons]
      constructor
      · rintro ⟨h1, h2, h3, h4⟩
        refine ⟨?_, h2, h3, ?_⟩
        · rintro u (rfl | hu)
          · exact Or.inl rfl
          · exact h1 u hu
        · rcases h4 with h | ⟨u, hu, hne⟩
          · exact Or.inl h
          · exact Or.inr ⟨u, Or.inr hu, hne⟩
      · rintro ⟨h1, h2, h3, h4⟩
        refine ⟨fun u hu => h1 u (Or.inr hu), h2, h3, ?_⟩
        rcases h4 with h | ⟨u, hu, hne⟩
        · exact Or.inl h
        · rcases hu with rfl | hu
          · exact absurd rfl hne
          · exact Or.inr ⟨u, hu, hne⟩
    · rw [parseWindowsGo, if_neg ht]
      rcases hm : matchToken t with _ | ⟨lab, s1, s2⟩
      · have hp : parseOneToken seen t
            = Except.error ("Invalid window token: " ++ t) := by
          simp only [parseOneToken, hm]
        simp only [hp, parseOk, Bool.false_eq_true, false_iff, not_and]
        intro h1
        rcases h1 t (List.mem_cons_self t ts) with rfl | hg
        · exact absurd rfl ht
        · intro _ _
          simp only [goodToken, hm] at hg
          exact Bool.noConfusion hg
      · have hlabmem : tokenLabel t = some lab := by
          rw [tokenLabel, hm]
          rfl
        by_cases hseen : seen.contains lab = true
        · have hp : parseOneToken seen t
              = Except.error ("Duplicate window label " ++ lab) := by
            simp only [parseOneToken, hm]
            rw [if_pos hseen]
          simp only [hp, parseOk, Bool.false_eq_true, false_iff, not_and]
          intro _ h2
          intro _ _
          have hmem : lab ∈ (t :: ts).filterMap tokenLabel := by
            simp [List.filterMap_cons, hlabmem]
          have hnot := h2 lab hmem
          rw [List.contains_iff_exists_mem_beq] at hseen
          obtain ⟨u, hu, hbeq⟩ := hseen
          rw [beq_iff_eq] at hbeq
          exact absurd (hbeq ▸ hu) hnot
        · rcases hd1 : parseTimestamp s1 with _ | d1 <;>
            rcases hd2 : parseTimestamp s2 with _ | d2
          · have hp : parseOneToken seen t
                = Except.error "Could not parse dates in window" := by
              simp only [parseOneToken, hm]
              rw [if_neg hseen]
              simp only [hd1, hd2]
            simp only [hp, parseOk, Bool.false_eq_true, false_iff, not_and]
            intro h1
            rcases h1 t (List.mem_cons_self t ts) with rfl | hg
            · exact absurd rfl ht
            · intro _ _
              simp only [goodToken, hm, hd1, hd2] at hg
              exact Bool.noConfusion hg
          · have hp : parseOneToken seen t
                = Except.error "Could not parse dates in window" := by
              simp only [parseOneToken, hm]
              rw [if_neg hseen]
              simp only [hd1, hd2]
            simp only [hp, parseOk, Bool.false_eq_true, false_iff, not_and]
            intro h1
            rcases h1 t (List.mem_cons_self t ts) with rfl | hg
            · exact absurd rfl ht
            · intro _ _
              simp only [goodToken, hm, hd1, hd2] at hg
              exact Bool.noConfusion hg
          · have hp : parseOneToken seen t
                = Except.error "Could not parse dates in window" := by
              simp only [parseOneToken, hm]
              rw [if_neg hseen]
              simp only [hd1, hd2]
            simp only [hp, parseOk, Bool.false_eq_true, false_iff, not_and]
            intro h1
            rcases h1 t (List.mem_cons_self t ts) with rfl | hg
            · exact absurd rfl ht
            · intro _ _
              simp only [goodToken, hm, hd1, hd2] at hg
              exact Bool.noConfusion hg
          · by_cases hle : dateLe d1 d2 = true
            · have hp : parseOneToken seen t
                  = Except.ok (⟨lab, d1, d2⟩ : Window) := by
                simp only [parseOneToken, hm]
                rw [if_neg hseen]
                simp only [hd1, hd2]
                rw [if_pos hle]
              have hgood : goodToken t = true := by
                simp only [goodToken, hm, hd1, hd2]
                exact hle
              simp only [hp]
              rw [ih]
              constructor
              · rintro ⟨h1, h2, h3, -⟩
                refine ⟨?_, ?_, ?_,
                  Or.inr ⟨t, List.mem_cons_self t ts, ht⟩⟩
                · intro u hu
                  rcases List.mem_cons.mp hu with rfl | hu2
                  · exact Or.inr hgood
                  · exact h1 u hu2
                · simp only [List.filterMap_cons, hlabmem, List.mem_cons]
                  rintro u (rfl | hu)
                  · intro habs
                    rw [List.contains_iff_exists_mem_beq] at hseen
                    exact hseen ⟨u, habs, beq_self_eq_true u⟩
                  · intro habs
                    exact (h2 u hu) (List.mem_cons_of_mem lab habs)
                · simp only [List.filterMap_cons, hlabmem]
                  refine List.Pairwise.cons ?_ h3
                  intro u hu heq
                  exact (h2 u hu) (heq ▸ List.mem_cons_self lab seen)
              · rintro ⟨h1, h2, h3, -⟩
                simp only [List.filterMap_cons, hlabmem, List.mem_cons]
                  at h2 h3
                rw [List.nodup_cons] at h3
                refine ⟨fun u hu => h1 u (List.mem_cons_of_mem t hu),
                  ?_, h3.2, Or.inl (by simp)⟩
                intro u hu
                simp only [List.mem_cons, not_or]
                exact ⟨fun habs => (h3.1 (habs ▸ hu)), h2 u (Or.inr hu)⟩
            · have hp : parseOneToken seen t
                  = Except.error "Window start is after end" := by
                simp only [parseOneToken, hm]
                rw [if_neg hseen]
                simp only [hd1, hd2]
                rw [if_neg hle]
              simp only [hp, parseOk, Bool.false_eq_true, false_iff, not_and]
              intro h1
              rcases h1 t (List.mem_cons_self t ts) with rfl | hg
              · exact absurd rfl ht
              · intro _ _
                simp only [goodToken, hm, hd1, hd2] at hg
                exact absurd hg hle

/-- Every token that `str.split()` produces is nonempty. -/
theorem pyTokens_ne_empty (s : String) : ∀ t ∈ pyTokens s, t ≠ "" := by
  intro t ht
  have h := List.mem_filter.mp ht
  simpa using h.2

/-- C9: time-window parsing succeeds exactly on a (nonempty) sequence of
whitespace-separated tokens each matching `label:YYYY-MM-DD|YYYY-MM-DD`
(label over letters, digits and underscores; both dates valid calendar
dates) with start not after end, and with pairwise-distinct labels; any
malformed token (no pipe, bad label character, bad date), any window with
start after end, and any duplicate label makes it raise. -/
theorem parse_windows_ok_iff (s : String) :
    parseOk (parse_windows s) = true
      ↔ (pyTokens s ≠ []
         ∧ (∀ t ∈ pyTokens s, goodToken t = true)
         ∧ ((pyTokens s).filterMap tokenLabel).Nodup) := by
  rw [parse_windows, parseWindowsGo_isOk]
  constructor
  · rintro ⟨h1, -, h3, h4⟩
    rcases h4 with h | ⟨u, hu, -⟩
    · exact absurd rfl h
    · refine ⟨?_, ?_, h3⟩
      · intro habs
        rw [habs] at hu
        exact absurd hu (List.not_mem_nil u)
      · intro u2 hu2
        rcases h1 u2 hu2 with rfl | hg
        · exact absurd rfl (pyTokens_ne_empty s _ hu2)
        · exact hg
  · rintro ⟨hne, hgood, hnd⟩
    refine ⟨fun u hu => Or.inr (hgood u hu),
      fun lab _ => List.not_mem_nil lab, hnd, Or.inr ?_⟩
    obtain ⟨u, hu⟩ : ∃ u, u ∈ pyTokens s := by
      cases h : pyTokens s with
      | nil => exact absurd h hne
      | cons a l => exact ⟨a, h ▸ List.mem_cons_self a l⟩
    exact ⟨u, hu, pyTokens_ne_empty s u hu⟩
